import Mathlib

/-!
# Verification of the CheckHealthDO monitoring & alerting pipeline

A shallow embedding, in Lean 4, of the alert-policy, trend, retry, SMTP
authentication, broadcast and notification-manager code of the
`check_health_go` repository, together with theorems settling the spec's
claims about it.

Modelling conventions:
* Go `float64` metric values and thresholds are modelled as `ℚ`; the
  comparisons the code performs on them are exact, so this is faithful on
  the inputs the claims are about.  The one place where IEEE special
  values matter (division by a zero first-half average in the trend
  computation) is modelled by an explicit `GoFloat` type with `posInf`,
  `negInf` and `nan`.
* `time.Time` is modelled by `GoTime`: `abs` is the absolute instant in
  seconds (`time.Since t = now.abs - t.abs`) and `day` a calendar-day
  identifier (the code only compares `YearDay()`/`Year()` for equality).
  A Go zero `time.Time` field is modelled as `none : Option GoTime`;
  `time.Since` of the zero time exceeds every configured window, which the
  model reflects by treating `none` as "no throttle".
* Each Go alert-handler method is a pure state-transition function
  `state → state × ℕ`, the `ℕ` being the number of notifications the call
  hands to `SendNotifications` (0 or 1).
-/

/-- A `time.Time` instant: `abs` in seconds for durations, `day` the
calendar-day identifier used by the daily-counter reset comparison. -/
structure GoTime where
  abs : ℤ
  day : ℤ
deriving DecidableEq

/-- The slice of `CPUInfo`/`MemoryInfo` the alert handlers read: the usage
percentage and the classification string. -/
structure InfoM where
  usage : ℚ
  status : String
deriving DecidableEq

/-! ## Classification (`GetCPUInfo` / `GetMemoryInfo` / `determineStatus`) -/

/-- Status determination shared verbatim by `GetMemoryInfo`
(memory/types.go), `GetCPUInfo` (cpu info file) and
`determineStatus`/`determineDiskStatus` (disk/monitor.go):
`status := "normal"; if v >= crit { "critical" } else if v >= warn { "warning" }`. -/
def determineStatus (usagePercent warningThreshold criticalThreshold : ℚ) : String :=
  if usagePercent ≥ criticalThreshold then ("critical")
  else if usagePercent ≥ warningThreshold then ("warning")
  else ("normal")

/-! ## IEEE special values for the trend computation -/

/-- A Go `float64` restricted to what `getCPUTrend` can produce: a finite
(exactly represented) value, an infinity, or NaN. -/
inductive GoFloat
  | finite (q : ℚ)
  | posInf
  | negInf
  | nan
deriving DecidableEq

/-- IEEE division of two finite values: division by zero yields ±Inf or
NaN exactly as Go `float64` division does. -/
def GoFloat.div (a b : ℚ) : GoFloat :=
  if b = 0 then
    if a = 0 then .nan
    else if 0 < a then .posInf
    else .negInf
  else .finite (a / b)

/-- Multiplication of a `GoFloat` by a positive finite constant
(the `* 100.0` of the percent-change formula). -/
def GoFloat.mulPos (x : GoFloat) (c : ℚ) : GoFloat :=
  match x with
  | .finite q => .finite (q * c)
  | .posInf => .posInf
  | .negInf => .negInf
  | .nan => .nan

/-- IEEE `>` against a finite constant: `+Inf > c`, NaN compares false. -/
def GoFloat.gtQ : GoFloat → ℚ → Bool
  | .finite q, c => decide (c < q)
  | .posInf, _ => true
  | .negInf, _ => false
  | .nan, _ => false

/-- IEEE `<` against a finite constant: `-Inf < c`, NaN compares false. -/
def GoFloat.ltQ : GoFloat → ℚ → Bool
  | .finite q, c => decide (q < c)
  | .posInf, _ => false
  | .negInf, _ => true
  | .nan, _ => false

/-- Model of `Monitor.getCPUTrend` (cpu/monitor.go): fewer than 2 readings give
("stable", 0); otherwise the percent change between the first- and
second-half averages selects the trend label.  There is no guard on
`firstHalfAvg == 0`: the division is performed unconditionally. -/
def getCPUTrend (usageReadings : List ℚ) : String × GoFloat :=
  if usageReadings.length < 2 then ("stable", .finite 0)
  else
    let midpoint := usageReadings.length / 2
    let firstHalfSum := (usageReadings.take midpoint).sum
    let secondHalfSum := (usageReadings.drop midpoint).sum
    let firstHalfAvg := firstHalfSum / (midpoint : ℚ)
    let secondHalfAvg := secondHalfSum / ((usageReadings.length - midpoint : ℕ) : ℚ)
    let percentChange := (GoFloat.div (secondHalfAvg - firstHalfAvg) firstHalfAvg).mulPos 100
    if percentChange.gtQ 5 then ("rapidly increasing", percentChange)
    else if percentChange.gtQ 1 then ("increasing", percentChange)
    else if percentChange.ltQ (-5) then ("rapidly decreasing", percentChange)
    else if percentChange.ltQ (-1) then ("decreasing", percentChange)
    else ("stable", percentChange)

/-! ## Generic alert throttling (`alerts.Handler.ShouldThrottleAlert`) -/

/-- Throttling configuration (`Notifications.Throttling`): enabled flag and
cooldown period in seconds. -/
structure ThrottlingCfg where
  enabled : Bool
  cooldownPeriod : ℤ
deriving DecidableEq

/-- The cooldown both handler files resolve locally:
`cooldownPeriod := 300; if cfg.Notifications.Throttling.Enabled { cooldownPeriod = cfg...CooldownPeriod }`. -/
def resolveCooldown (t : ThrottlingCfg) : ℤ :=
  if t.enabled then t.cooldownPeriod else 300

/-- Test of `time.Since(last) < window`, with `none` modelling the Go zero time
(whose age exceeds every window). -/
def withinWindow (last : Option GoTime) (now : GoTime) (w : ℤ) : Bool :=
  match last with
  | none => false
  | some t => decide (now.abs - t.abs < w)

/-- Model of `alerts.Handler.ShouldThrottleAlert`: never throttles a status change
or when throttling is disabled (resetting the suppressed counter);
otherwise throttles while the monitor's last alert is within cooldown,
incrementing the suppressed counter.  Returns (throttle?, new counter). -/
def ShouldThrottleAlert (throttling : ThrottlingCfg) (now : GoTime)
    (monitorLastAlertTime : Option GoTime) (statusChanged : Bool)
    (counter : ℕ) : Bool × ℕ :=
  if statusChanged || !throttling.enabled then (false, 0)
  else if withinWindow monitorLastAlertTime now throttling.cooldownPeriod then
    (true, counter + 1)
  else (false, 0)

/-! ## CPU alert handler (cpu/alerts.go; part_023 mirrors it for memory) -/

/-- The throttling parameters `cpu.NewAlertHandler` resolves from config
(defaults: escalation 5, critical throttle 3, max 5/day, aggregation 5 min,
warning throttle window 30 min). -/
structure CpuAlertCfg where
  throttling : ThrottlingCfg
  warningThrottleWindow : ℤ
  aggregationInterval : ℤ
  warningEscalation : ℕ
  criticalThrottleCount : ℕ
  maxWarningsPerDay : ℕ
deriving DecidableEq

/-- The mutable fields of `cpu.AlertHandler`, plus the monitor's
`lastAlertTime` (read by `ShouldThrottleAlert` through `GetLastAlertTime`
and written by `UpdateLastAlertTime`) and the `alerts.Handler` suppressed
counters the handler increments. -/
structure CpuAlertState where
  lastWarningAlertTime : Option GoTime
  lastCriticalAlertTime : Option GoTime
  lastNormalAlertTime : Option GoTime
  warningCount : ℕ
  pendingWarnings : List InfoM
  lastAggregationTime : GoTime
  currentCriticalCount : ℕ
  warningsSentToday : ℕ
  lastDayReset : GoTime
  lastInfo : Option InfoM
  monitorLastAlertTime : Option GoTime
  suppressedWarningCount : ℕ
  suppressedCriticalCount : ℕ
deriving DecidableEq

/-- Test `a.lastInfo != nil && a.lastInfo.CPUStatus == "critical"`. -/
def lastWasCritical : Option InfoM → Bool
  | some li => li.status == "critical"
  | none => false

/-- Test `a.lastInfo != nil && a.lastInfo.CPUStatus != "critical"`. -/
def lastNotCritical : Option InfoM → Bool
  | some li => li.status != "critical"
  | none => false

/-- Model of `cpu.AlertHandler.sendWarningNotification`: increments the daily
counter, consults `ShouldThrottleAlert`, and on an actual send records
`lastWarningAlertTime`, updates the monitor's last alert time and resets
`warningCount`. -/
def cpuSendWarningNotification (cfg : CpuAlertCfg) (now : GoTime)
    (st : CpuAlertState) (statusChanged : Bool) : CpuAlertState × ℕ :=
  let st := { st with warningsSentToday := st.warningsSentToday + 1 }
  let tc := ShouldThrottleAlert cfg.throttling now st.monitorLastAlertTime
    statusChanged st.suppressedWarningCount
  if tc.1 then ({ st with suppressedWarningCount := tc.2 }, 0)
  else
    let st := { st with suppressedWarningCount := tc.2,
                        lastWarningAlertTime := some now }
    let st := { st with monitorLastAlertTime := some now }
    ({ st with warningCount := 0 }, 1)

/-- Model of `cpu.AlertHandler.sendAggregatedWarningAlert`: no-op on an empty
buffer; otherwise counts one daily warning, sends, stamps the aggregation
and warning times, clears the buffer and resets `warningCount`. -/
def cpuSendAggregatedWarningAlert (now : GoTime) (st : CpuAlertState) :
    CpuAlertState × ℕ :=
  if st.pendingWarnings = [] then (st, 0)
  else
    let st := { st with warningsSentToday := st.warningsSentToday + 1 }
    let st := { st with monitorLastAlertTime := some now,
                        lastAggregationTime := now,
                        pendingWarnings := [],
                        lastWarningAlertTime := some now,
                        warningCount := 0 }
    (st, 1)

/-- Model of `cpu.AlertHandler.HandleWarningAlert`: daily-counter reset, critical
counter reset, critical→warning improvement swallow, 30-minute warning
throttle window, daily cap, then immediate send on a status change or the
aggregation/escalation policy otherwise. -/
def cpuHandleWarningAlert (cfg : CpuAlertCfg) (now : GoTime)
    (st : CpuAlertState) (info : InfoM) (statusChanged : Bool) :
    CpuAlertState × ℕ :=
  let st :=
    if now.day ≠ st.lastDayReset.day then
      { st with warningsSentToday := 0, lastDayReset := now }
    else st
  let st := { st with currentCriticalCount := 0 }
  if statusChanged && lastWasCritical st.lastInfo then
    ({ st with lastInfo := some info }, 0)
  else if withinWindow st.lastWarningAlertTime now cfg.warningThrottleWindow then
    ({ st with suppressedWarningCount := st.suppressedWarningCount + 1 }, 0)
  else if cfg.maxWarningsPerDay ≤ st.warningsSentToday then (st, 0)
  else if statusChanged then
    let st := { st with warningCount := 0, lastInfo := some info }
    cpuSendWarningNotification cfg now st statusChanged
  else
    let st := { st with warningCount := st.warningCount + 1,
                        lastInfo := some info,
                        pendingWarnings := st.pendingWarnings ++ [info] }
    if cfg.aggregationInterval ≤ now.abs - st.lastAggregationTime.abs
        ∧ st.pendingWarnings ≠ [] then
      cpuSendAggregatedWarningAlert now st
    else if st.warningCount < cfg.warningEscalation then (st, 0)
    else cpuSendWarningNotification cfg now st statusChanged

/-- Model of `cpu.AlertHandler.HandleCriticalAlert`: counts the consecutive
critical event, stores `lastInfo`, requires `criticalThrottleCount`
consecutive events unless the status just changed, applies the cooldown,
then sends, stamps `lastCriticalAlertTime` and resets the counter. -/
def cpuHandleCriticalAlert (cfg : CpuAlertCfg) (now : GoTime)
    (st : CpuAlertState) (info : InfoM) (statusChanged : Bool) :
    CpuAlertState × ℕ :=
  let st := { st with currentCriticalCount := st.currentCriticalCount + 1 }
  let cooldown := resolveCooldown cfg.throttling
  let st := { st with lastInfo := some info }
  if !statusChanged && decide (st.currentCriticalCount < cfg.criticalThrottleCount) then
    (st, 0)
  else if withinWindow st.lastCriticalAlertTime now cooldown then
    ({ st with suppressedCriticalCount := st.suppressedCriticalCount + 1 }, 0)
  else
    let st := { st with monitorLastAlertTime := some now,
                        lastCriticalAlertTime := some now,
                        currentCriticalCount := 0 }
    (st, 1)

/-- Model of `cpu.AlertHandler.HandleNormalAlert`, translated statement by
statement: it assigns `a.lastInfo = info` (the current, normal reading)
BEFORE testing `a.lastInfo.CPUStatus != "critical"`, then applies the
cooldown and sends. -/
def cpuHandleNormalAlert (cfg : CpuAlertCfg) (now : GoTime)
    (st : CpuAlertState) (info : InfoM) (statusChanged : Bool) :
    CpuAlertState × ℕ :=
  let st := { st with warningCount := 0, currentCriticalCount := 0,
                      lastInfo := some info }
  if !statusChanged || lastNotCritical st.lastInfo then (st, 0)
  else
    let cooldown := resolveCooldown cfg.throttling
    if withinWindow st.lastNormalAlertTime now cooldown then (st, 0)
    else
      let st := { st with monitorLastAlertTime := some now,
                          lastNormalAlertTime := some now }
      (st, 1)

/-! ## Memory alert handler (internal/monitoring/server/memory/alerts.go) -/

/-- Configuration the memory handler reads: the shared throttling block
plus the hard-coded escalation threshold 5 and aggregation interval 5 min
set in `memory.NewAlertHandler`. -/
structure MemAlertCfg where
  throttling : ThrottlingCfg
  warningEscalation : ℕ
  aggregationInterval : ℤ
deriving DecidableEq

/-- Mutable fields of `memory.AlertHandler` (the plain variant: no daily
cap, no warning throttle window, no critical counter), plus the monitor's
`lastAlertTime` and the suppressed-warning counter. -/
structure MemAlertState where
  lastWarningAlertTime : Option GoTime
  warningCount : ℕ
  pendingWarnings : List InfoM
  lastAggregationTime : GoTime
  monitorLastAlertTime : Option GoTime
  suppressedWarningCount : ℕ
deriving DecidableEq

/-- Model of `memory.AlertHandler.sendWarningNotification`: consults
`ShouldThrottleAlert`, then records `lastWarningAlertTime` and updates the
monitor's last alert time.  It does NOT reset `warningCount`. -/
def memSendWarningNotification (cfg : MemAlertCfg) (now : GoTime)
    (st : MemAlertState) (statusChanged : Bool) : MemAlertState × ℕ :=
  let tc := ShouldThrottleAlert cfg.throttling now st.monitorLastAlertTime
    statusChanged st.suppressedWarningCount
  if tc.1 then ({ st with suppressedWarningCount := tc.2 }, 0)
  else
    let st := { st with suppressedWarningCount := tc.2,
                        lastWarningAlertTime := some now,
                        monitorLastAlertTime := some now }
    (st, 1)

/-- Model of `memory.AlertHandler.sendAggregatedWarningAlert`: no-op on an empty
buffer; otherwise sends, stamps the aggregation time and clears the
buffer (no `warningCount` reset, no `lastWarningAlertTime` update). -/
def memSendAggregatedWarningAlert (now : GoTime) (st : MemAlertState) :
    MemAlertState × ℕ :=
  if st.pendingWarnings = [] then (st, 0)
  else
    ({ st with monitorLastAlertTime := some now,
               lastAggregationTime := now,
               pendingWarnings := [] }, 1)

/-- Model of `memory.AlertHandler.HandleWarningAlert`: local cooldown for
non-change warnings, immediate send on a status change, otherwise the
aggregation/escalation policy.  There is no daily-cap field or check. -/
def memHandleWarningAlert (cfg : MemAlertCfg) (now : GoTime)
    (st : MemAlertState) (info : InfoM) (statusChanged : Bool) :
    MemAlertState × ℕ :=
  let cooldown := resolveCooldown cfg.throttling
  if !statusChanged && withinWindow st.lastWarningAlertTime now cooldown then
    ({ st with suppressedWarningCount := st.suppressedWarningCount + 1 }, 0)
  else if statusChanged then
    memSendWarningNotification cfg now { st with warningCount := 0 } statusChanged
  else
    let st := { st with warningCount := st.warningCount + 1,
                        pendingWarnings := st.pendingWarnings ++ [info] }
    if cfg.aggregationInterval ≤ now.abs - st.lastAggregationTime.abs
        ∧ st.pendingWarnings ≠ [] then
      memSendAggregatedWarningAlert now st
    else if st.warningCount < cfg.warningEscalation then (st, 0)
    else memSendWarningNotification cfg now st statusChanged

/-- Model of `memory.AlertHandler.HandleNormalAlert`: resets the escalation counter
and sends whenever `statusChanged` is true — for ANY previous status,
including warning. -/
def memHandleNormalAlert (now : GoTime) (st : MemAlertState)
    (statusChanged : Bool) : MemAlertState × ℕ :=
  let st := { st with warningCount := 0 }
  if !statusChanged then (st, 0)
  else ({ st with monitorLastAlertTime := some now }, 1)

/-! ## Iterated runs of the handlers -/

/-- Runs `n` consecutive warning readings through the CPU handler, all with
`statusChanged = false`; reading `k` arrives at time `ts k`.  Returns the
final state and the total number of notifications sent. -/
def cpuWarnRun (cfg : CpuAlertCfg) (ts : ℕ → GoTime) (info : InfoM)
    (st : CpuAlertState) : ℕ → CpuAlertState × ℕ
  | 0 => (st, 0)
  | n + 1 =>
    let p := cpuWarnRun cfg ts info st n
    let q := cpuHandleWarningAlert cfg (ts n) p.1 info false
    (q.1, p.2 + q.2)

/-- Runs `n` consecutive critical readings through the CPU handler; reading `k`
arrives at time `ts k` with status-change flag `flags k`. -/
def cpuCritRun (cfg : CpuAlertCfg) (ts : ℕ → GoTime) (flags : ℕ → Bool)
    (info : InfoM) (st : CpuAlertState) : ℕ → CpuAlertState × ℕ
  | 0 => (st, 0)
  | n + 1 =>
    let p := cpuCritRun cfg ts flags info st n
    let q := cpuHandleCriticalAlert cfg (ts n) p.1 info (flags n)
    (q.1, p.2 + q.2)

/-- A sequence of warning readings (time, info, statusChanged) through the
CPU handler, in order. -/
def cpuWarnRunSeq (cfg : CpuAlertCfg) (st : CpuAlertState) :
    List (GoTime × InfoM × Bool) → CpuAlertState × ℕ
  | [] => (st, 0)
  | e :: rest =>
    let q := cpuHandleWarningAlert cfg e.1 st e.2.1 e.2.2
    let p := cpuWarnRunSeq cfg q.1 rest
    (p.1, q.2 + p.2)

/-- Runs `n` consecutive warning readings through the memory handler; reading
`k` arrives at time `ts k` with status-change flag `flags k`. -/
def memWarnRun (cfg : MemAlertCfg) (ts : ℕ → GoTime) (flags : ℕ → Bool)
    (info : InfoM) (st : MemAlertState) : ℕ → MemAlertState × ℕ
  | 0 => (st, 0)
  | n + 1 =>
    let p := memWarnRun cfg ts flags info st n
    let q := memHandleWarningAlert cfg (ts n) p.1 info (flags n)
    (q.1, p.2 + q.2)

/-! ## Retry manager (`retry.DefaultManager.Execute`) -/

/-- Outcome of `Execute`: success after a number of attempts, or failure
with the attempt count and the list of attempt errors the final
`fmt.Errorf("failed to send email after %d attempts: %v", retryCount+1,
lastErr)` actually includes — only the last one. -/
inductive RetryOutcome
  | success (attempts : ℕ)
  | failure (attempts : ℕ) (reported : List String)
deriving DecidableEq

/-- The retry loop body: `attempt` is the current index, `fuel` the number
of attempts still allowed, `lastErr` the last failure seen. -/
def ExecuteAux (sendFunc : ℕ → Option String) :
    ℕ → ℕ → Option String → RetryOutcome
  | attempt, 0, lastErr =>
    .failure attempt (match lastErr with | some e => [e] | none => [])
  | attempt, fuel + 1, _ =>
    match sendFunc attempt with
    | none => .success (attempt + 1)
    | some e => ExecuteAux sendFunc (attempt + 1) fuel (some e)

/-- Model of `retry.DefaultManager.Execute`: `for attempt := 0; attempt <=
retryCount; attempt++`, returning success on the first nil error and
otherwise an error built from the attempt count and the LAST error. -/
def Execute (retryCount : ℕ) (sendFunc : ℕ → Option String) : RetryOutcome :=
  ExecuteAux sendFunc 0 (retryCount + 1) none

/-! ## Custom LOGIN authentication (`auth.DefaultProvider.performLoginAuth`) -/

/-- Result of one raw SMTP `command`: a reply (code, message) or a
transport error. -/
inductive CmdResult
  | reply (code : ℕ) (msg : String)
  | ioErr (e : String)
deriving DecidableEq

/-- Result of `performLoginAuth`: nil, or an error message. -/
inductive AuthResult
  | ok
  | authError (msg : String)
deriving DecidableEq

/-- Whether `sub` is an initial segment of `s` (character lists). -/
def leadsWith : List Char → List Char → Bool
  | [], _ => true
  | _ :: _, [] => false
  | a :: as, b :: bs => a == b && leadsWith as bs

/-- Whether `sub` occurs contiguously inside `s` (character lists). -/
def occursIn (sub : List Char) : List Char → Bool
  | [] => leadsWith sub []
  | c :: rest => leadsWith sub (c :: rest) || occursIn sub rest

/-- Model of `strings.Contains`. -/
def containsSubstr (s sub : String) : Bool :=
  occursIn sub.data s.data

/-- Model of `auth.DefaultProvider.performLoginAuth`: issue AUTH LOGIN expecting
334, send the base64 username expecting 334, send the base64 password
expecting 235; any other code or transport error is returned as a hard
failure.  `replies k` is the server's answer to the k-th command; the
second component counts commands issued (the protocol layer never
retries). -/
def performLoginAuth (replies : ℕ → CmdResult) : AuthResult × ℕ :=
  match replies 0 with
  | .ioErr e => (.authError ("AUTH command failed: " ++ e), 1)
  | .reply code msg =>
    if code ≠ 334 then
      (.authError ("expected 334 response to AUTH LOGIN, got " ++ toString code ++ (": " ++ msg)), 1)
    else
      match replies 1 with
      | .ioErr e => (.authError ("sending username failed: " ++ e), 2)
      | .reply code msg =>
        if code ≠ 334 then
          (.authError ("username rejected with code " ++ toString code ++ (": " ++ msg)), 2)
        else
          match replies 2 with
          | .ioErr e =>
            if containsSubstr e ("535") then
              (.authError ("authentication failed - incorrect username or password"), 3)
            else (.authError ("sending password failed: " ++ e), 3)
          | .reply code msg =>
            if code ≠ 235 then
              (.authError ("authentication failed with code " ++ toString code ++ (": " ++ msg)), 3)
            else (.ok, 3)

/-! ## Broadcast hub (`websocket.Handler.Broadcast`) -/

/-- Model of `Handler.Broadcast`: iterate the subscriber set, writing the payload
to each; a failed write closes and removes only that subscriber and the
loop continues.  Clients are identified by name; `writeOk c` tells whether
the write to `c` succeeds.  Returns (clients still subscribed afterwards,
clients that received the payload). -/
def Broadcast (writeOk : String → Bool) :
    List String → List String × List String
  | [] => ([], [])
  | c :: rest =>
    let p := Broadcast writeOk rest
    if writeOk c then (c :: p.1, c :: p.2) else (p.1, p.2)

/-! ## Email manager memoization (`notifications.NewEmailManager`) -/

/-- The email configuration fields `NewEmailManager` consults. -/
structure ConfigM where
  provider : String
deriving DecidableEq

/-- The client chosen by the provider switch. -/
inductive EmailClientKind
  | smtp
  | mutt
deriving DecidableEq

/-- The provider switch in `NewEmailManager` (default: smtp). -/
def selectEmailClient (provider : String) : EmailClientKind :=
  if provider.toLower == "smtp" then .smtp
  else if provider.toLower == "mutt" then .mutt
  else .smtp

/-- Model of `notifications.EmailManager`: the config it was built with and the
client it selected. -/
structure EmailManagerM where
  Config : ConfigM
  emailClient : EmailClientKind
deriving DecidableEq

/-- Model of `notifications.NewEmailManager` with the package-level
`initializedEmailManager` global passed explicitly: if the global is
already set it is returned unchanged (the `cfg` argument is ignored);
otherwise a manager is built from `cfg` and cached.  Returns (returned
manager, new value of the global). -/
def NewEmailManager (cfg : ConfigM) (cached : Option EmailManagerM) :
    EmailManagerM × Option EmailManagerM :=
  match cached with
  | some m => (m, some m)
  | none =>
    let m : EmailManagerM := ⟨cfg, selectEmailClient cfg.provider⟩
    (m, some m)

/-- A whole process run: call `NewEmailManager` once per config in the
list, threading the global, and collect the returned managers. -/
def NewEmailManagerRun : List ConfigM → Option EmailManagerM →
    List EmailManagerM × Option EmailManagerM
  | [], g => ([], g)
  | cfg :: rest, g =>
    let r := NewEmailManager cfg g
    let p := NewEmailManagerRun rest r.2
    (r.1 :: p.1, p.2)

/-! ## Concrete scenario data used by the claim theorems -/

/-- Throttling disabled (the code's default when the block is absent). -/
def throttlingOff : ThrottlingCfg := ⟨false, 300⟩

/-- The defaults `cpu.NewAlertHandler` installs: escalation 5, critical
throttle 3, 5 warnings/day, 5-minute aggregation, 30-minute warning
throttle window. -/
def cpuDefaultCfg : CpuAlertCfg :=
  { throttling := throttlingOff
    warningThrottleWindow := 1800
    aggregationInterval := 300
    warningEscalation := 5
    criticalThrottleCount := 3
    maxWarningsPerDay := 5 }

/-- Process start instant. -/
def day0 : GoTime := ⟨0, 0⟩

/-- A freshly constructed `cpu.AlertHandler` (zero times modelled as
`none`, `lastAggregationTime`/`lastDayReset` stamped at construction). -/
def cpuFreshState : CpuAlertState :=
  { lastWarningAlertTime := none
    lastCriticalAlertTime := none
    lastNormalAlertTime := none
    warningCount := 0
    pendingWarnings := []
    lastAggregationTime := day0
    currentCriticalCount := 0
    warningsSentToday := 0
    lastDayReset := day0
    lastInfo := none
    monitorLastAlertTime := none
    suppressedWarningCount := 0
    suppressedCriticalCount := 0 }

/-- Defaults: `memory.NewAlertHandler` hard-codes escalation 5 and 5-minute
aggregation. -/
def memDefaultCfg : MemAlertCfg := ⟨throttlingOff, 5, 300⟩

/-- A freshly constructed `memory.AlertHandler`. -/
def memFreshState : MemAlertState :=
  { lastWarningAlertTime := none
    warningCount := 0
    pendingWarnings := []
    lastAggregationTime := day0
    monitorLastAlertTime := none
    suppressedWarningCount := 0 }

/-- Reading `k` arrives `k + 1` seconds after process start, all on the
same calendar day. -/
def tick (k : ℕ) : GoTime := ⟨(k : ℤ) + 1, 0⟩

/-- A warning-classified reading. -/
def warnInfo : InfoM := ⟨85, "warning"⟩

/-- A critical-classified reading. -/
def critInfo : InfoM := ⟨95, "critical"⟩

/-- A normal-classified reading. -/
def normInfo : InfoM := ⟨30, "normal"⟩

/-- The CPU handler state right after a run of critical readings: the last
stored info is classified critical. -/
def cpuAfterCriticalState : CpuAlertState :=
  { cpuFreshState with lastInfo := some critInfo }

/-- A server that answers 334, 334, 235: the accepting LOGIN dialogue. -/
def repliesAccept : ℕ → CmdResult := fun k =>
  if k = 0 then .reply 334 ("VXNlcm5hbWU6")
  else if k = 1 then .reply 334 ("UGFzc3dvcmQ6")
  else .reply 235 ("2.7.0 Authentication successful")

/-- A server that rejects the password with 535. -/
def replies535 : ℕ → CmdResult := fun k =>
  if k = 0 then .reply 334 ("VXNlcm5hbWU6")
  else if k = 1 then .reply 334 ("UGFzc3dvcmQ6")
  else .reply 535 ("5.7.8 Authentication credentials invalid")

/-! ## Theorems -/

/-- Helper: once the global cache holds `m`, every later call returns `m`
and leaves the cache unchanged. -/
theorem NewEmailManagerRun_cached (cfgs : List ConfigM) (m : EmailManagerM) :
    NewEmailManagerRun cfgs (some m) = (List.replicate cfgs.length m, some m) := by
  induction cfgs with
  | nil => rfl
  | cons c rest ih => simp [NewEmailManagerRun, NewEmailManager, ih, List.replicate]

/-- C5: for all values `v`, `classify(v, warn, crit)` returns Critical iff
`v ≥ crit`, Warning iff `warn ≤ v < crit`, and Normal otherwise. -/
theorem determineStatus_spec (v warn crit : ℚ) :
    (determineStatus v warn crit = "critical" ↔ crit ≤ v) ∧
    (determineStatus v warn crit = "warning" ↔ warn ≤ v ∧ v < crit) ∧
    (determineStatus v warn crit = "normal" ↔
      ¬crit ≤ v ∧ ¬(warn ≤ v ∧ v < crit)) := by
  have h1 : ("critical" : String) ≠ "warning" := by decide
  have h2 : ("critical" : String) ≠ "normal" := by decide
  have h3 : ("warning" : String) ≠ "normal" := by decide
  unfold determineStatus
  split_ifs with hc hw
  · refine ⟨⟨fun _ => hc, fun _ => rfl⟩, ⟨fun h => absurd h h1, ?_⟩,
      ⟨fun h => absurd h h2, ?_⟩⟩
    · rintro ⟨-, hlt⟩; exact absurd hc (not_le.mpr hlt)
    · rintro ⟨hn, -⟩; exact absurd hc hn
  · refine ⟨⟨fun h => absurd h.symm h1, fun h => absurd h hc⟩,
      ⟨fun _ => ⟨hw, not_le.mp hc⟩, fun _ => rfl⟩,
      ⟨fun h => absurd h h3, ?_⟩⟩
    rintro ⟨-, hnw⟩; exact absurd ⟨hw, not_le.mp hc⟩ hnw
  · refine ⟨⟨fun h => absurd h.symm h2, fun h => absurd h hc⟩,
      ⟨fun h => absurd h.symm h3, fun h => absurd h.1 hw⟩,
      ⟨fun _ => ⟨hc, fun h => hw h.1⟩, fun _ => rfl⟩⟩

/-- C9: broadcasting with zero subscribers is a no-op, and broadcasting to
{A, B, C} where exactly B's write fails delivers the payload to A and C
and leaves exactly {A, C} subscribed afterwards. -/
theorem Broadcast_spec :
    (∀ writeOk : String → Bool, Broadcast writeOk [] = ([], [])) ∧
    Broadcast (fun c => c != "B") ["A", "B", "C"] = (["A", "C"], ["A", "C"]) :=
  ⟨fun _ => rfl, by decide⟩

/-- C10: `NewEmailManager` is memoized process-wide: every call after the
first returns the first call's instance, ignoring the `cfg` argument of
later calls, and that instance's behaviour is fixed by the first config. -/
theorem NewEmailManager_memoized (cfg1 cfg2 : ConfigM) (cfgs : List ConfigM) :
    (NewEmailManager cfg2 (NewEmailManager cfg1 none).2).1 =
      (NewEmailManager cfg1 none).1 ∧
    (NewEmailManager cfg1 none).1.Config = cfg1 ∧
    (NewEmailManagerRun (cfg1 :: cfgs) none).1 =
      List.replicate (cfgs.length + 1) (NewEmailManager cfg1 none).1 := by
  refine ⟨rfl, rfl, ?_⟩
  simp [NewEmailManagerRun, NewEmailManager, NewEmailManagerRun_cached,
    List.replicate]

/-- C7 counterexample: with `retryCount = 2` and a send function whose
three attempts fail with "e0", "e1", "e2", the returned error reports the
attempt count and the LAST failure only — it does not enumerate the three
attempt failures. -/
theorem Execute_reports_only_last_error :
    Execute 2 (fun k => some ("e" ++ toString k)) = .failure 3 ["e2"] ∧
    ("e0" : String) ∉ ["e2"] ∧ ("e1" : String) ∉ ["e2"] := by decide

/-- C7 (amended): with `retryCount = 2`, a send function that fails twice
then succeeds is invoked exactly 3 times and `Execute` returns success;
a send function that always fails is invoked exactly 3 times and the
returned error reports the attempt count (3) together with the last
attempt's failure (not all three). -/
theorem Execute_retryCount_two (send : ℕ → Option String) (e0 e1 e2 : String) :
    (send 0 = some e0 → send 1 = some e1 → send 2 = none →
      Execute 2 send = .success 3) ∧
    (send 0 = some e0 → send 1 = some e1 → send 2 = some e2 →
      Execute 2 send = .failure 3 [e2]) := by
  constructor <;> intro h0 h1 h2 <;>
    simp only [Execute, ExecuteAux, h0, h1, h2]

/-- C7 witness: the amended theorem applied to concrete send functions. -/
theorem Execute_retryCount_two_witness :
    Execute 2 (fun k => if k < 2 then some ("boom") else none) = .success 3 ∧
    Execute 2 (fun _ => some ("down")) = .failure 3 ["down"] :=
  ⟨(Execute_retryCount_two _ ("boom") ("boom") ("down")).1 rfl rfl rfl,
   (Execute_retryCount_two _ ("down") ("down") ("down")).2 rfl rfl rfl⟩

/-- C8: the custom LOGIN authentication succeeds exactly when the reply
sequence is 334 to AUTH LOGIN, 334 to the username, 235 to the password;
any other code — notably 535 at the password step — yields an
authentication-failure error; and the protocol layer never issues more
than the three commands (no protocol-level retry). -/
theorem performLoginAuth_spec :
    (∀ replies : ℕ → CmdResult,
      ((performLoginAuth replies).1 = .ok ↔
        ∃ m1 m2 m3, replies 0 = .reply 334 m1 ∧ replies 1 = .reply 334 m2 ∧
          replies 2 = .reply 235 m3)) ∧
    (∀ replies : ℕ → CmdResult, ∀ m1 m2 m3 : String,
      replies 0 = .reply 334 m1 → replies 1 = .reply 334 m2 →
      replies 2 = .reply 535 m3 →
        (performLoginAuth replies).1 =
          .authError ("authentication failed with code 535: " ++ m3)) ∧
    (∀ replies : ℕ → CmdResult, (performLoginAuth replies).2 ≤ 3) := by
  refine ⟨?_, ?_, ?_⟩
  · intro replies
    unfold performLoginAuth
    cases h0 : replies 0 with
    | ioErr e => simp [h0]
    | reply c0 s0 =>
      by_cases hc0 : c0 = 334
      · subst hc0
        cases h1 : replies 1 with
        | ioErr e => simp [h0, h1]
        | reply c1 s1 =>
          by_cases hc1 : c1 = 334
          · subst hc1
            cases h2 : replies 2 with
            | ioErr e => simp [h0, h1, h2]; split <;> simp
            | reply c2 s2 =>
              by_cases hc2 : c2 = 235
              · subst hc2; simp [h0, h1, h2]
              · simp [h0, h1, h2, hc2]
          · simp [h0, h1, hc1]
      · simp [h0, hc0]
  · intro replies m1 m2 m3 h0 h1 h2
    simp only [performLoginAuth, h0, h1, h2, ne_eq, not_true_eq_false,
      if_false, ite_false, if_neg (by norm_num : ¬(535 : ℕ) = 235)]
    rw [← String.append_assoc]
    exact congrArg (fun s => (AuthResult.authError (s ++ m3), 3).1) (by decide)
  · intro replies
    unfold performLoginAuth
    cases h0 : replies 0 with
    | ioErr e => simp
    | reply c0 s0 =>
      by_cases hc0 : c0 = 334
      · subst hc0
        cases h1 : replies 1 with
        | ioErr e => simp
        | reply c1 s1 =>
          by_cases hc1 : c1 = 334
          · subst hc1
            cases h2 : replies 2 with
            | ioErr e =>
              simp only [ne_eq, not_true_eq_false, if_false, ite_false]
              split <;> simp
            | reply c2 s2 => by_cases hc2 : c2 = 235 <;> simp [hc2]
          · simp [hc1]
      · simp [hc0]

/-- C8 witness: the accepting dialogue (334, 334, 235) authenticates; a
535 at the password step is a hard authentication failure. -/
theorem performLoginAuth_spec_witness :
    (performLoginAuth repliesAccept).1 = .ok ∧
    (performLoginAuth replies535).1 =
      .authError ("authentication failed with code 535: " ++
        "5.7.8 Authentication credentials invalid") :=
  ⟨(performLoginAuth_spec.1 repliesAccept).mpr ⟨_, _, _, rfl, rfl, rfl⟩,
   performLoginAuth_spec.2.1 replies535 _ _ _ rfl rfl rfl⟩

/-- C1: the spec says Warning→Normal never notifies and Critical→Normal
notifies exactly once.  The CPU handler's own comment agrees, but the code
assigns `a.lastInfo = info` (the current, normal reading) before testing
`a.lastInfo.CPUStatus != "critical"`, so a Critical→Normal transition
sends nothing; and the memory handler notifies on ANY change to normal,
so Warning→Normal sends one notification. -/
theorem handleNormalAlert_bug :
    cpuAfterCriticalState.lastInfo = some critInfo ∧
    critInfo.status = "critical" ∧
    (cpuHandleNormalAlert cpuDefaultCfg (tick 0) cpuAfterCriticalState
      normInfo true).2 = 0 ∧
    (memHandleNormalAlert (tick 0) memFreshState true).2 = 1 := by decide

/-- C2 counterexample: five consecutive non-change warning readings
through the memory handler (escalation threshold 5, no aggregation flush)
do send exactly one notification on the 5th reading — but
`memory.sendWarningNotification` never resets `warningCount`, so the
escalation counter equals 5, not 0, immediately after the send. -/
theorem mem_escalation_counter_not_reset :
    (memWarnRun memDefaultCfg tick (fun _ => false) warnInfo memFreshState 4).2 = 0 ∧
    (memWarnRun memDefaultCfg tick (fun _ => false) warnInfo memFreshState 5).2 = 1 ∧
    (memWarnRun memDefaultCfg tick (fun _ => false) warnInfo memFreshState 5).1.warningCount = 5 ∧
    ¬(memWarnRun memDefaultCfg tick (fun _ => false) warnInfo memFreshState 5).1.warningCount = 0 := by
  decide

/-- C3 counterexample: with critical-throttle count `C = 3`, a direct
Warning→Critical status change fires the single critical notification
immediately on the transition reading — not on the 3rd critical reading
as the claim states for `C > 1`. -/
theorem cpu_critical_fires_on_transition :
    cpuDefaultCfg.criticalThrottleCount = 3 ∧
    (cpuCritRun cpuDefaultCfg tick (fun k => k == 0) critInfo cpuFreshState 1).2 = 1 ∧
    (cpuCritRun cpuDefaultCfg tick (fun k => k == 0) critInfo cpuFreshState 3).2 = 1 := by
  decide

/-- C4 counterexample: the memory handler has no daily-cap field or check:
six status-change warning readings on one calendar day produce six warning
notifications, exceeding the configured `maxWarningsPerDay = 5`. -/
theorem mem_no_daily_cap :
    (∀ k, k < 6 → (tick k).day = day0.day) ∧
    (memWarnRun memDefaultCfg tick (fun _ => true) warnInfo memFreshState 6).2 = 6 ∧
    cpuDefaultCfg.maxWarningsPerDay < 6 := by
  decide

/-- C6 counterexample: on the window [0, 0, 10, 10] the first-half average
is 0, yet `getCPUTrend` still evaluates the percent-change formula: the
IEEE division yields +Inf and the trend reports "rapidly increasing", not
"stable". -/
theorem getCPUTrend_no_zero_guard :
    (([0, 0, 10, 10] : List ℚ).take (([0, 0, 10, 10] : List ℚ).length / 2)).sum = 0 ∧
    getCPUTrend [0, 0, 10, 10] = ("rapidly increasing", .posInf) ∧
    ¬(getCPUTrend [0, 0, 10, 10]).1 = "stable" := by
  have h : getCPUTrend [0, 0, 10, 10] = ("rapidly increasing", .posInf) := by
    norm_num [getCPUTrend, GoFloat.div, GoFloat.mulPos, GoFloat.gtQ]
  refine ⟨by norm_num, h, by rw [h]; decide⟩

/-- C6 (amended): for a trend window with at least 2 entries whose
first-half average is 0, `getCPUTrend` does NOT short-circuit to "stable":
it evaluates the percent-change formula in IEEE arithmetic, reporting
"rapidly increasing" with +Inf when the second-half sum is positive, and
"stable" with NaN only because NaN fails every comparison, when the
second-half sum is also 0. -/
theorem getCPUTrend_zero_firstHalfAvg (rs : List ℚ) (h2 : 2 ≤ rs.length)
    (hz : (rs.take (rs.length / 2)).sum = 0) :
    (0 < (rs.drop (rs.length / 2)).sum →
      getCPUTrend rs = ("rapidly increasing", .posInf)) ∧
    ((rs.drop (rs.length / 2)).sum = 0 →
      getCPUTrend rs = ("stable", .nan)) := by
  have hlen : ¬ rs.length < 2 := not_lt.mpr h2
  have hd : (0:ℚ) < ((rs.length - rs.length / 2 : ℕ) : ℚ) := by
    have h : 0 < rs.length - rs.length / 2 := by omega
    exact_mod_cast h
  constructor
  · intro hpos
    have hs : 0 < (rs.drop (rs.length / 2)).sum / ((rs.length - rs.length / 2 : ℕ) : ℚ) :=
      div_pos hpos hd
    simp only [getCPUTrend, if_neg hlen, hz, zero_div, sub_zero]
    rw [GoFloat.div, if_pos rfl, if_neg (ne_of_gt hs), if_pos hs]
    rfl
  · intro hz2
    simp only [getCPUTrend, if_neg hlen, hz, hz2, zero_div, sub_zero]
    rw [GoFloat.div, if_pos rfl, if_pos rfl]
    rfl

/-- C6 witness: the amended theorem at the windows [0, 0, 4, 6]
(second half positive) and [0, 0] (second half zero). -/
theorem getCPUTrend_zero_firstHalfAvg_witness :
    getCPUTrend [0, 0, 4, 6] = ("rapidly increasing", .posInf) ∧
    getCPUTrend [0, 0] = ("stable", .nan) :=
  ⟨(getCPUTrend_zero_firstHalfAvg [0, 0, 4, 6] (by norm_num) (by norm_num)).1
      (by norm_num),
   (getCPUTrend_zero_firstHalfAvg [0, 0] (by norm_num) (by norm_num)).2
      (by norm_num)⟩

/-- Helper: the transition reading (statusChanged = true) sends
immediately when no prior critical alert has been recorded. -/
theorem cpuCritRun_step1 (cfg : CpuAlertCfg) (ts : ℕ → GoTime)
    (flags : ℕ → Bool) (info : InfoM) (st0 : CpuAlertState)
    (hlc : st0.lastCriticalAlertTime = none) (hf0 : flags 0 = true) :
    cpuCritRun cfg ts flags info st0 1 =
      ({ st0 with currentCriticalCount := 0,
                  lastInfo := some info,
                  monitorLastAlertTime := some (ts 0),
                  lastCriticalAlertTime := some (ts 0) }, 1) := by
  simp [cpuCritRun, cpuHandleCriticalAlert, hf0, hlc, withinWindow]

/-- Helper: after the immediate send, the following non-change critical
readings are suppressed by the consecutive-count gate while the count
stays below the throttle. -/
theorem cpuCritRun_suppressed (cfg : CpuAlertCfg) (ts : ℕ → GoTime)
    (flags : ℕ → Bool) (info : InfoM) (st0 : CpuAlertState)
    (hlc : st0.lastCriticalAlertTime = none) (hf0 : flags 0 = true)
    (hfk : ∀ k, 1 ≤ k → flags k = false) :
    ∀ j, j + 1 ≤ cfg.criticalThrottleCount →
      (cpuCritRun cfg ts flags info st0 (j + 1)).2 = 1 ∧
      (cpuCritRun cfg ts flags info st0 (j + 1)).1.currentCriticalCount = j := by
  intro j
  induction j with
  | zero =>
    intro _
    rw [cpuCritRun_step1 cfg ts flags info st0 hlc hf0]
    exact ⟨rfl, rfl⟩
  | succ j ih =>
    intro h
    have hj := ih (by omega)
    have hflag := hfk (j + 1) (by omega)
    have hlt : (j + 1) < cfg.criticalThrottleCount := by omega
    have hstep : cpuCritRun cfg ts flags info st0 (j + 1 + 1) =
        ((cpuHandleCriticalAlert cfg (ts (j + 1))
            (cpuCritRun cfg ts flags info st0 (j + 1)).1 info (flags (j + 1))).1,
         (cpuCritRun cfg ts flags info st0 (j + 1)).2 +
           (cpuHandleCriticalAlert cfg (ts (j + 1))
             (cpuCritRun cfg ts flags info st0 (j + 1)).1 info (flags (j + 1))).2) := rfl
    rcases hp : cpuCritRun cfg ts flags info st0 (j + 1) with ⟨s, c⟩
    rw [hp] at hj hstep
    have hjs : s.currentCriticalCount = j := hj.2
    have hjc : c = 1 := hj.1
    rw [hstep]
    simp only [cpuHandleCriticalAlert, hflag, hjs, hjc, Bool.not_false,
      Bool.true_and, decide_eq_true_eq]
    rw [if_pos hlt]
    exact ⟨rfl, rfl⟩

/-- C3 (amended): after a direct Warning→Critical status change followed
by C−1 further critical readings, exactly one critical notification fires
— but it fires immediately on the transition reading, for every throttle
count C (and the subsequent C−1 non-change readings are suppressed by the
consecutive-count gate, leaving the counter at k−1 after k readings). -/
theorem cpu_critical_immediate (cfg : CpuAlertCfg) (ts : ℕ → GoTime)
    (flags : ℕ → Bool) (info : InfoM) (st0 : CpuAlertState)
    (hlc : st0.lastCriticalAlertTime = none)
    (hf0 : flags 0 = true)
    (hfk : ∀ k, 1 ≤ k → flags k = false) :
    ∀ k, 1 ≤ k → k ≤ cfg.criticalThrottleCount →
      (cpuCritRun cfg ts flags info st0 k).2 = 1 ∧
      (cpuCritRun cfg ts flags info st0 k).1.currentCriticalCount = k - 1 := by
  intro k hk1 hkC
  obtain ⟨j, rfl⟩ : ∃ j, k = j + 1 := ⟨k - 1, by omega⟩
  simpa using cpuCritRun_suppressed cfg ts flags info st0 hlc hf0 hfk j hkC

/-- C3 witness: the amended theorem at the default throttle count 3, a
transition reading followed by two non-change critical readings. -/
theorem cpu_critical_immediate_witness :
    (cpuCritRun cpuDefaultCfg tick (fun k => k == 0) critInfo cpuFreshState 3).2 = 1 ∧
    (cpuCritRun cpuDefaultCfg tick (fun k => k == 0) critInfo cpuFreshState 3).1.currentCriticalCount = 2 :=
  cpu_critical_immediate cpuDefaultCfg tick (fun k => k == 0) critInfo
    cpuFreshState rfl rfl
    (fun k hk => by simp only [beq_eq_false_iff_ne, ne_eq]; omega)
    3 (by norm_num) (by decide)

/-- Helper: a non-change warning reading below the escalation threshold,
with a same-day fresh handler and no pending aggregation flush, only
counts and buffers. -/
theorem cpuHandleWarningAlert_nonchange_suppressed (cfg : CpuAlertCfg) (now : GoTime)
    (s : CpuAlertState) (info : InfoM)
    (hday : now.day = s.lastDayReset.day)
    (hlw : s.lastWarningAlertTime = none)
    (hws : s.warningsSentToday < cfg.maxWarningsPerDay)
    (hagg : now.abs - s.lastAggregationTime.abs < cfg.aggregationInterval)
    (hesc : s.warningCount + 1 < cfg.warningEscalation) :
    cpuHandleWarningAlert cfg now s info false =
      ({ s with currentCriticalCount := 0,
                warningCount := s.warningCount + 1,
                lastInfo := some info,
                pendingWarnings := s.pendingWarnings ++ [info] }, 0) := by
  simp only [cpuHandleWarningAlert, hday, hlw, withinWindow, lastWasCritical,
    Bool.false_and, ne_eq, not_true_eq_false, if_false, ite_false,
    Bool.false_eq_true, if_neg (not_le.mpr hws)]
  rw [if_neg (fun h => absurd h.1 (not_le.mpr hagg)), if_pos hesc]

/-- Helper: the reading that reaches the escalation threshold sends one
notification, resets `warningCount` and counts one daily warning. -/
theorem cpuHandleWarningAlert_escalation_send (cfg : CpuAlertCfg) (now : GoTime)
    (s : CpuAlertState) (info : InfoM)
    (hthr : cfg.throttling.enabled = false)
    (hday : now.day = s.lastDayReset.day)
    (hlw : s.lastWarningAlertTime = none)
    (hws : s.warningsSentToday < cfg.maxWarningsPerDay)
    (hagg : now.abs - s.lastAggregationTime.abs < cfg.aggregationInterval)
    (hesc : cfg.warningEscalation ≤ s.warningCount + 1) :
    (cpuHandleWarningAlert cfg now s info false).2 = 1 ∧
    (cpuHandleWarningAlert cfg now s info false).1.warningCount = 0 ∧
    (cpuHandleWarningAlert cfg now s info false).1.warningsSentToday =
      s.warningsSentToday + 1 := by
  simp only [cpuHandleWarningAlert, cpuSendWarningNotification, ShouldThrottleAlert,
    hday, hlw, hthr, withinWindow, lastWasCritical, Bool.false_and, ne_eq,
    not_true_eq_false, if_false, ite_false, Bool.false_eq_true,
    if_neg (not_le.mpr hws), Bool.not_false, Bool.or_true, if_true, ite_true]
  rw [if_neg (fun h => absurd h.1 (not_le.mpr hagg)), if_neg (not_lt.mpr hesc)]
  exact ⟨rfl, rfl, rfl⟩

/-- Helper: invariant over the first readings of an escalation episode:
no sends, `warningCount` tracks the reading index, and the fields the
suppression checks consult stay fresh. -/
theorem cpuWarnRun_invariant (cfg : CpuAlertCfg) (ts : ℕ → GoTime) (info : InfoM)
    (st0 : CpuAlertState)
    (hmax : 1 ≤ cfg.maxWarningsPerDay)
    (hwc : st0.warningCount = 0)
    (hlw : st0.lastWarningAlertTime = none)
    (hws : st0.warningsSentToday = 0)
    (hday : ∀ k, k < cfg.warningEscalation → (ts k).day = st0.lastDayReset.day)
    (hagg : ∀ k, k < cfg.warningEscalation →
      (ts k).abs - st0.lastAggregationTime.abs < cfg.aggregationInterval) :
    ∀ k, k < cfg.warningEscalation →
      (cpuWarnRun cfg ts info st0 k).2 = 0 ∧
      (cpuWarnRun cfg ts info st0 k).1.warningCount = k ∧
      (cpuWarnRun cfg ts info st0 k).1.lastWarningAlertTime = none ∧
      (cpuWarnRun cfg ts info st0 k).1.warningsSentToday = 0 ∧
      (cpuWarnRun cfg ts info st0 k).1.lastDayReset = st0.lastDayReset ∧
      (cpuWarnRun cfg ts info st0 k).1.lastAggregationTime = st0.lastAggregationTime := by
  intro k
  induction k with
  | zero => intro _; exact ⟨rfl, hwc, hlw, hws, rfl, rfl⟩
  | succ k ih =>
    intro hk
    have hinv := ih (by omega)
    rcases hp : cpuWarnRun cfg ts info st0 k with ⟨s, c⟩
    rw [hp] at hinv
    have hc : c = 0 := hinv.1
    have h1 : s.warningCount = k := hinv.2.1
    have h2 : s.lastWarningAlertTime = none := hinv.2.2.1
    have h3 : s.warningsSentToday = 0 := hinv.2.2.2.1
    have h4 : s.lastDayReset = st0.lastDayReset := hinv.2.2.2.2.1
    have h5 : s.lastAggregationTime = st0.lastAggregationTime := hinv.2.2.2.2.2
    have hstep : cpuWarnRun cfg ts info st0 (k + 1) =
        ((cpuHandleWarningAlert cfg (ts k) s info false).1,
         c + (cpuHandleWarningAlert cfg (ts k) s info false).2) := by
      simp only [cpuWarnRun, hp]
    have hq := cpuHandleWarningAlert_nonchange_suppressed cfg (ts k) s info
      (by rw [h4]; exact hday k (by omega)) h2 (by omega)
      (by rw [h5]; exact hagg k (by omega)) (by omega)
    rw [hstep, hq]
    exact ⟨by simp [hc], by simp [h1], by simp [h2], by simp [h3],
      by simp [h4], by simp [h5]⟩

/-- C2 (amended): for escalation threshold E, E consecutive non-change
warning readings with no aggregation flush (and throttling disabled, on
one calendar day, from a fresh handler) send exactly one notification, on
the E-th reading, and the CPU handler resets the escalation counter to 0
immediately after the send.  (The plain memory handler violates the
counter-reset part; see its counterexample.) -/
theorem cpu_warning_escalation (cfg : CpuAlertCfg) (ts : ℕ → GoTime) (info : InfoM)
    (st0 : CpuAlertState)
    (hthr : cfg.throttling.enabled = false)
    (hE : 1 ≤ cfg.warningEscalation)
    (hmax : 1 ≤ cfg.maxWarningsPerDay)
    (hwc : st0.warningCount = 0)
    (hlw : st0.lastWarningAlertTime = none)
    (hws : st0.warningsSentToday = 0)
    (hday : ∀ k, k < cfg.warningEscalation → (ts k).day = st0.lastDayReset.day)
    (hagg : ∀ k, k < cfg.warningEscalation →
      (ts k).abs - st0.lastAggregationTime.abs < cfg.aggregationInterval) :
    (cpuWarnRun cfg ts info st0 (cfg.warningEscalation - 1)).2 = 0 ∧
    (cpuWarnRun cfg ts info st0 cfg.warningEscalation).2 = 1 ∧
    (cpuWarnRun cfg ts info st0 cfg.warningEscalation).1.warningCount = 0 := by
  obtain ⟨E1, hE1⟩ : ∃ E1, cfg.warningEscalation = E1 + 1 :=
    ⟨cfg.warningEscalation - 1, by omega⟩
  have hsub : cfg.warningEscalation - 1 = E1 := by omega
  have hinv := cpuWarnRun_invariant cfg ts info st0 hmax hwc hlw hws hday hagg
    E1 (by omega)
  rcases hp : cpuWarnRun cfg ts info st0 E1 with ⟨s, c⟩
  rw [hp] at hinv
  have hc : c = 0 := hinv.1
  have h1 : s.warningCount = E1 := hinv.2.1
  have h2 : s.lastWarningAlertTime = none := hinv.2.2.1
  have h3 : s.warningsSentToday = 0 := hinv.2.2.2.1
  have h4 : s.lastDayReset = st0.lastDayReset := hinv.2.2.2.2.1
  have h5 : s.lastAggregationTime = st0.lastAggregationTime := hinv.2.2.2.2.2
  have hstep : cpuWarnRun cfg ts info st0 (E1 + 1) =
      ((cpuHandleWarningAlert cfg (ts E1) s info false).1,
       c + (cpuHandleWarningAlert cfg (ts E1) s info false).2) := by
    simp only [cpuWarnRun, hp]
  have hq := cpuHandleWarningAlert_escalation_send cfg (ts E1) s info hthr
    (by rw [h4]; exact hday E1 (by omega)) h2 (by omega)
    (by rw [h5]; exact hagg E1 (by omega)) (by omega)
  refine ⟨?_, ?_, ?_⟩
  · rw [hsub, hp, hc]
  · rw [hE1, hstep, hc, hq.1]
  · rw [hE1, hstep]; exact hq.2.1

/-- C2 (amended): for escalation threshold E, E consecutive non-change
warning readings with no aggregation flush (and throttling disabled, on
one calendar day, from a fresh handler) send exactly one notification, on
the E-th reading, and the CPU handler resets the escalation counter to 0
immediately after the send.  (The plain memory handler violates the
counter-reset part; see its counterexample.) -/
theorem cpu_warning_escalation_witness :
    (cpuWarnRun cpuDefaultCfg tick warnInfo cpuFreshState 4).2 = 0 ∧
    (cpuWarnRun cpuDefaultCfg tick warnInfo cpuFreshState 5).2 = 1 ∧
    (cpuWarnRun cpuDefaultCfg tick warnInfo cpuFreshState 5).1.warningCount = 0 := by
  have h := cpu_warning_escalation cpuDefaultCfg tick warnInfo cpuFreshState
    rfl (by decide) (by decide) rfl rfl rfl
    (fun k _ => rfl)
    (fun k hk => by
      simp only [tick, cpuFreshState, day0, cpuDefaultCfg] at hk ⊢
      omega)
  simpa [cpuDefaultCfg] using h

/-- Helper: one same-day warning reading preserves the reset day, the
daily counter majorises the sends, stays at or below the cap, and sends
nothing once the cap is reached. -/
theorem cpuHandleWarningAlert_cap_step (cfg : CpuAlertCfg) (now : GoTime)
    (st : CpuAlertState) (info : InfoM) (sc : Bool)
    (hday : now.day = st.lastDayReset.day) :
    (cpuHandleWarningAlert cfg now st info sc).1.lastDayReset = st.lastDayReset ∧
    st.warningsSentToday + (cpuHandleWarningAlert cfg now st info sc).2 ≤
      (cpuHandleWarningAlert cfg now st info sc).1.warningsSentToday ∧
    (st.warningsSentToday ≤ cfg.maxWarningsPerDay →
      (cpuHandleWarningAlert cfg now st info sc).1.warningsSentToday ≤
        cfg.maxWarningsPerDay) ∧
    (cfg.maxWarningsPerDay ≤ st.warningsSentToday →
      (cpuHandleWarningAlert cfg now st info sc).2 = 0) := by
  unfold cpuHandleWarningAlert cpuSendWarningNotification
    cpuSendAggregatedWarningAlert ShouldThrottleAlert
  rw [if_neg (not_not_intro hday)]
  split_ifs <;> simp_all <;> try omega
  all_goals repeat' split
  all_goals simp_all
  all_goals omega

/-- Helper: folding the per-reading cap bound over a same-day sequence of
warning readings. -/
theorem cpuWarnRunSeq_cap_aux (cfg : CpuAlertCfg) :
    ∀ (events : List (GoTime × InfoM × Bool)) (st : CpuAlertState),
      (∀ e ∈ events, e.1.day = st.lastDayReset.day) →
      st.warningsSentToday ≤ cfg.maxWarningsPerDay →
      st.warningsSentToday + (cpuWarnRunSeq cfg st events).2 ≤
        (cpuWarnRunSeq cfg st events).1.warningsSentToday ∧
      (cpuWarnRunSeq cfg st events).1.warningsSentToday ≤ cfg.maxWarningsPerDay ∧
      (cpuWarnRunSeq cfg st events).1.lastDayReset = st.lastDayReset := by
  intro events
  induction events with
  | nil =>
    intro st _ hle
    exact ⟨by simp [cpuWarnRunSeq], by simpa [cpuWarnRunSeq] using hle,
      by simp [cpuWarnRunSeq]⟩
  | cons e rest ih =>
    intro st hday hle
    have hstep := cpuHandleWarningAlert_cap_step cfg e.1 st e.2.1 e.2.2
      (hday e (List.mem_cons_self e rest))
    rcases hq : cpuHandleWarningAlert cfg e.1 st e.2.1 e.2.2 with ⟨s1, d⟩
    rw [hq] at hstep
    have ha : s1.lastDayReset = st.lastDayReset := hstep.1
    have hb : st.warningsSentToday + d ≤ s1.warningsSentToday := hstep.2.1
    have hc : s1.warningsSentToday ≤ cfg.maxWarningsPerDay := hstep.2.2.1 hle
    have hrest := ih s1 (fun x hx => by
      rw [ha]; exact hday x (List.mem_cons_of_mem e hx)) hc
    have hrun : cpuWarnRunSeq cfg st (e :: rest) =
        ((cpuWarnRunSeq cfg s1 rest).1, d + (cpuWarnRunSeq cfg s1 rest).2) := by
      simp only [cpuWarnRunSeq, hq]
    rw [hrun]
    refine ⟨?_, hrest.2.1, by rw [hrest.2.2, ha]⟩
    show st.warningsSentToday + (d + (cpuWarnRunSeq cfg s1 rest).2) ≤
      (cpuWarnRunSeq cfg s1 rest).1.warningsSentToday
    have := hrest.1
    omega

/-- C4 (amended): for the CPU handler, any same-day sequence of warning
readings starting from a zero daily counter sends at most
`maxWarningsPerDay` warning-class notifications (individual or
aggregated), and once `warningsSentToday` has reached the cap a further
same-day candidate warning is suppressed.  (The plain memory handler has
no cap at all; see its counterexample.) -/
theorem cpu_daily_cap (cfg : CpuAlertCfg) (events : List (GoTime × InfoM × Bool))
    (st0 : CpuAlertState)
    (hday : ∀ e ∈ events, e.1.day = st0.lastDayReset.day)
    (hws : st0.warningsSentToday = 0) :
    (cpuWarnRunSeq cfg st0 events).2 ≤ cfg.maxWarningsPerDay ∧
    (∀ now info sc st1, now.day = st1.lastDayReset.day →
      cfg.maxWarningsPerDay ≤ st1.warningsSentToday →
      (cpuHandleWarningAlert cfg now st1 info sc).2 = 0) := by
  constructor
  · have h := cpuWarnRunSeq_cap_aux cfg events st0 hday (by omega)
    omega
  · intro now info sc st1 h1 h2
    exact (cpuHandleWarningAlert_cap_step cfg now st1 info sc h1).2.2.2 h2

/-- C4 (amended): for the CPU handler, any same-day sequence of warning
readings starting from a zero daily counter sends at most
`maxWarningsPerDay` warning-class notifications (individual or
aggregated), and once `warningsSentToday` has reached the cap a further
same-day candidate warning is suppressed.  (The plain memory handler has
no cap at all; see its counterexample.) -/
theorem cpu_daily_cap_witness :
    (cpuWarnRunSeq cpuDefaultCfg cpuFreshState
        [(tick 0, warnInfo, true), (tick 1, warnInfo, false)]).2 ≤
      cpuDefaultCfg.maxWarningsPerDay :=
  (cpu_daily_cap cpuDefaultCfg [(tick 0, warnInfo, true), (tick 1, warnInfo, false)]
    cpuFreshState (by decide) rfl).1
